import Mathlib

/-!
A shallow embedding of the core of `deep_space_dash.py` (the "Deep Space Dash"
endless spaceship game): the progression tracker, entity registry, encounter
resolver, milestone engine and run state machine of `Game.update_game`,
`Game.handle_collision`, `Game.handle_input`, `Game.reset_game` and
`Game.teleport_player`, together with the leaderboard hand-off
`Leaderboard.add_score`.

Modelling conventions:
* Python `int` fields become `ℤ` (the milestone cursor, which only counts
  upward from 0, becomes `ℕ`); Python `float` fields become `ℚ` with the
  decimal literals of the source read exactly.
* `int(x)` conversion of a float is truncation toward zero (`truncQ`).
* `random` draws (spawn positions and sizes, Bernoulli spawn decisions,
  portal jump choice, procedural milestone names and steps) are supplied by
  an explicit per-tick oracle `TickRand`.
* Purely visual data (colours, star field, HUD text and toast timers, the
  Earth launch animation geometry, obstacle colour variation, black-hole
  rotation / portal pulse phases used only for drawing) and file/clock I O
  (the JSON persistence and the timestamp inside a leaderboard entry) are
  outside the model; milestone firings are returned as an explicit event
  list instead of HUD text.
-/

namespace DeepSpaceDash

/-- Python `int(x)` on a rational: truncation toward zero. -/
def truncQ (q : ℚ) : ℤ := if 0 ≤ q then ⌊q⌋ else ⌈q⌉

/-- Python's two-argument `min` (first argument on ties). -/
def pymin (a b : ℚ) : ℚ := if a ≤ b then a else b

/-- Python's two-argument `max` (first argument on ties). -/
def pymax (a b : ℚ) : ℚ := if b ≤ a then a else b

/-! Constants from the header of `deep_space_dash.py`. -/

def SCREEN_WIDTH : ℤ := 800

def SCREEN_HEIGHT : ℤ := 600

def KM_PER_PIXEL : ℚ := 50000

def KM_PER_LIGHT_YEAR : ℚ := 94607304725808 / 10

def EXTRA_LIFE_DISTANCE : ℤ := 1000000000

def MAX_EXTRA_LIVES : ℤ := 3

def INITIAL_OBSTACLE_SPEED : ℚ := 3

def BASE_SPEED : ℚ := 3

def MAX_OBSTACLE_SPEED : ℚ := 15

def SPEED_INCREASE_RATE : ℚ := 1 / 1000

def BOOST_SPEED : ℚ := 20

def MAX_BOOST_SPEED : ℚ := 35

def INITIAL_SPAWN_DELAY : ℚ := 90

def MIN_SPAWN_DELAY : ℚ := 20

def SPAWN_DECREASE_RATE : ℚ := 1 / 100

/-- `PLANET_MILESTONES`: (name, distance, radius); the colour lists are
rendering data and are dropped. -/
def PLANET_MILESTONES : List (String × ℤ × ℤ) :=
  [("Moon", 384400, 30), ("Mars", 225300000, 50), ("Jupiter", 778500000, 100),
   ("Saturn", 1433000000, 90), ("Uranus", 2871000000, 70), ("Neptune", 4495000000, 70)]

/-- The game states `MENU = 0` … `LEADERBOARD = 6` of the source. -/
inductive GState where
  | MENU
  | COLOR_SELECT
  | LAUNCH_ANIMATION
  | RUNNING
  | GAME_OVER
  | PAUSED
  | LEADERBOARD
  deriving DecidableEq, Repr

/-- The `SHIP_COLORS` dict.  Keys other than the four colours never occur
(they would raise `KeyError` in the source); the final branch is `'yellow'`. -/
def SHIP_COLORS (c : String) : ℤ × ℤ × ℤ :=
  if c = "red" then (255, 50, 50)
  else if c = "green" then (50, 255, 50)
  else if c = "blue" then (100, 150, 255)
  else (255, 255, 50)

/-- A `pygame.Rect`: integer corner and extent. -/
structure Rect where
  x : ℤ
  y : ℤ
  w : ℤ
  h : ℤ
  deriving DecidableEq, Repr

/-- `pygame.Rect(...)` truncates float arguments toward zero. -/
def mkRect (x y w h : ℚ) : Rect := ⟨truncQ x, truncQ y, truncQ w, truncQ h⟩

/-- `pygame.Rect.colliderect`: strict overlap on both axes. -/
def Rect.collides (a b : Rect) : Prop :=
  b.x < a.x + a.w ∧ a.x < b.x + b.w ∧ b.y < a.y + a.h ∧ a.y < b.y + b.h

instance (a b : Rect) : Decidable (a.collides b) := by
  unfold Rect.collides; infer_instance

/-- The player's `Spaceship` (drawing colour kept as its RGB triple). -/
structure Spaceship where
  x : ℤ
  y : ℤ
  width : ℤ
  height : ℤ
  speed : ℤ
  color : ℤ × ℤ × ℤ
  invulnerable : Bool
  invulnerable_timer : ℤ
  deriving DecidableEq, Repr

/-- `Spaceship.__init__(x, y, color)`. -/
def Spaceship.mk0 (x y : ℤ) (color : ℤ × ℤ × ℤ) : Spaceship :=
  ⟨x, y, 40, 30, 5, color, false, 0⟩

/-- `Spaceship.set_invulnerable(frames)`. -/
def Spaceship.set_invulnerable (s : Spaceship) (frames : ℤ) : Spaceship :=
  { s with invulnerable := true, invulnerable_timer := frames }

/-- `Spaceship.update`: tick down the invulnerability window. -/
def Spaceship.update (s : Spaceship) : Spaceship :=
  if s.invulnerable then
    let s := { s with invulnerable_timer := s.invulnerable_timer - 1 }
    if s.invulnerable_timer ≤ 0 then { s with invulnerable := false } else s
  else s

/-- `Spaceship.move(dy)`: vertical move clamped to the playfield band. -/
def Spaceship.move (s : Spaceship) (dy : ℤ) : Spaceship :=
  { s with y := max 10 (min (SCREEN_HEIGHT - s.height - 10) (s.y + dy * s.speed)) }

/-- `Spaceship.get_rect`. -/
def Spaceship.get_rect (s : Spaceship) : Rect := ⟨s.x, s.y, s.width, s.height⟩

/-- An asteroid `Obstacle` (colour variation dropped: drawing only). -/
structure Obstacle where
  x : ℚ
  y : ℤ
  radius : ℤ
  speed : ℚ
  deriving DecidableEq, Repr

/-- `Obstacle.update(speed_multiplier)`. -/
def Obstacle.update (o : Obstacle) (m : ℚ) : Obstacle := { o with x := o.x - o.speed * m }

/-- `Obstacle.is_off_screen`. -/
def Obstacle.is_off_screen (o : Obstacle) : Prop := o.x + o.radius < 0

instance (o : Obstacle) : Decidable o.is_off_screen := by
  unfold Obstacle.is_off_screen; infer_instance

/-- `Obstacle.get_rect`. -/
def Obstacle.get_rect (o : Obstacle) : Rect :=
  mkRect (o.x - o.radius) ((o.y : ℚ) - o.radius) (o.radius * 2) (o.radius * 2)

/-- A `BlackHole` (rotation is drawing-only state but kept for fidelity). -/
structure BlackHole where
  x : ℚ
  y : ℤ
  radius : ℤ
  speed : ℚ
  rotation : ℤ
  deriving DecidableEq, Repr

/-- `BlackHole.update(speed_multiplier)`. -/
def BlackHole.update (b : BlackHole) (m : ℚ) : BlackHole :=
  { b with x := b.x - b.speed * m, rotation := b.rotation + 5 }

/-- `BlackHole.is_off_screen`. -/
def BlackHole.is_off_screen (b : BlackHole) : Prop := b.x + b.radius < 0

instance (b : BlackHole) : Decidable b.is_off_screen := by
  unfold BlackHole.is_off_screen; infer_instance

/-- `BlackHole.get_rect`. -/
def BlackHole.get_rect (b : BlackHole) : Rect :=
  mkRect (b.x - b.radius) ((b.y : ℤ) - b.radius) (b.radius * 2) (b.radius * 2)

/-- A teleportation `Portal` (pulse is drawing-only state but kept). -/
structure Portal where
  x : ℚ
  y : ℤ
  radius : ℤ
  speed : ℚ
  pulse : ℤ
  deriving DecidableEq, Repr

/-- `Portal.update(speed_multiplier)`. -/
def Portal.update (p : Portal) (m : ℚ) : Portal :=
  { p with x := p.x - p.speed * m, pulse := (p.pulse + 2) % 360 }

/-- `Portal.is_off_screen`. -/
def Portal.is_off_screen (p : Portal) : Prop := p.x + p.radius < 0

instance (p : Portal) : Decidable p.is_off_screen := by
  unfold Portal.is_off_screen; infer_instance

/-- `Portal.get_rect`. -/
def Portal.get_rect (p : Portal) : Rect :=
  mkRect (p.x - p.radius) ((p.y : ℤ) - p.radius) (p.radius * 2) (p.radius * 2)

/-- A decorative `Planet` (colour list dropped: drawing only). -/
structure Planet where
  name : String
  x : ℚ
  y : ℤ
  radius : ℤ
  deriving DecidableEq, Repr

/-- `Planet.update(speed_multiplier, base_speed)`. -/
def Planet.update (p : Planet) (m base_speed : ℚ) : Planet :=
  { p with x := p.x - base_speed * m }

/-- `Planet.is_off_screen`. -/
def Planet.is_off_screen (p : Planet) : Prop := p.x + p.radius < -100

instance (p : Planet) : Decidable p.is_off_screen := by
  unfold Planet.is_off_screen; infer_instance

/-- One leaderboard entry, as built by `Leaderboard.add_score`; the wall-clock
`date` string comes from the external clock and is dropped. -/
structure ScoreEntry where
  score : ℤ
  distance_km : ℤ
  distance_ly : ℚ
  ship_color : String
  deriving DecidableEq, Repr

/-- Insert an entry into a list sorted by descending score, after strictly
greater scores and before equal ones (the stable descending sort of
`list.sort(key=..., reverse=True)`). -/
def insertEntry (e : ScoreEntry) : List ScoreEntry → List ScoreEntry
  | [] => [e]
  | x :: xs => if x.score > e.score then x :: insertEntry e xs else e :: x :: xs

/-- Stable descending sort by score. -/
def sortEntries : List ScoreEntry → List ScoreEntry
  | [] => []
  | x :: xs => insertEntry x (sortEntries xs)

/-- `Leaderboard.add_score(score, distance_km, ship_color)`: append the new
entry, sort descending by score, keep the top 10.  (The `save_scores` file
write is external persistence.) -/
def addScore (scores : List ScoreEntry) (score distance_km : ℤ)
    (ship_color : String) : List ScoreEntry :=
  (sortEntries
    (scores ++ [⟨score, distance_km, (distance_km : ℚ) / KM_PER_LIGHT_YEAR, ship_color⟩])).take 10

/-- The per-tick random oracle: the outcomes of every `random` call a single
`update_game` tick may make.  `teleportKm` gives the `random.choice` result of
the k-th portal jump of the tick. -/
structure TickRand where
  obstY : ℤ
  obstRadius : ℤ
  bhSpawn : Bool
  bhY : ℤ
  portalSpawn : Bool
  portalY : ℤ
  teleportKm : ℕ → ℤ
  planetY : ℤ
  procName : String
  procIsGalaxy : Bool
  procStep : ℤ

/-- The core state of the `Game` object (rendering-only fields dropped:
screen, clock, star field, HUD object, Earth geometry). -/
structure Game where
  state : GState
  selected_color : String
  ship : Spaceship
  obstacles : List Obstacle
  black_holes : List BlackHole
  portals : List Portal
  planets : List Planet
  launch_timer : ℤ
  distance : ℤ
  pixels_traveled : ℚ
  current_speed : ℚ
  score : ℤ
  obstacle_speed : ℚ
  spawn_delay : ℚ
  spawn_timer : ℤ
  frame_count : ℤ
  is_boosting : Bool
  extra_lives : ℤ
  last_life_distance : ℤ
  milestone_index : ℕ
  last_planet_passed : String
  passed_neptune : Bool
  procedural_milestones : List (String × ℤ × Bool)
  next_procedural_distance : ℤ
  planet_shown : List Bool
  scores : List ScoreEntry
  deriving DecidableEq, Repr

/-- `Game.calculate_difficulty_multiplier`: `//` is Python floor division. -/
def calculate_difficulty_multiplier (distance : ℤ) : ℚ :=
  pymin (1 + ((Int.fdiv distance 500000000 : ℤ) : ℚ) * (15 / 100)) 3

/-- `Game.reset_game` (star field and Earth geometry are rendering-only). -/
def resetGame (g : Game) : Game :=
  { g with
    ship := Spaceship.mk0 100 (SCREEN_HEIGHT / 2) (SHIP_COLORS g.selected_color),
    obstacles := [], black_holes := [], portals := [], planets := [],
    distance := 0, pixels_traveled := 0, current_speed := BASE_SPEED, score := 0,
    obstacle_speed := INITIAL_OBSTACLE_SPEED, spawn_delay := INITIAL_SPAWN_DELAY,
    spawn_timer := 0, frame_count := 0, milestone_index := 0,
    last_planet_passed := "Earth", passed_neptune := false,
    procedural_milestones := [], next_procedural_distance := 5000000000,
    is_boosting := false, planet_shown := List.replicate PLANET_MILESTONES.length false,
    launch_timer := 0, extra_lives := 0, last_life_distance := 0 }

/-- `Game.handle_collision` (the HUD "Life Lost!" toast is rendering-only). -/
def handleCollision (g : Game) : Game :=
  if g.extra_lives > 0 then
    { g with extra_lives := g.extra_lives - 1, ship := g.ship.set_invulnerable 120 }
  else
    { g with state := GState.GAME_OVER,
             scores := addScore g.scores g.score g.distance g.selected_color }

/-- `teleport_options` inside `Game.teleport_player`. -/
def teleport_options : List ℤ :=
  [100, 1000, 10000, 100000, 1000000, 10000000, 100000000, 1000000000]

/-- `Game.teleport_player` given the drawn jump length (the HUD toast is
rendering-only). -/
def teleportPlayer (g : Game) (km : ℤ) : Game :=
  let px := g.pixels_traveled + (km : ℚ) / KM_PER_PIXEL
  { g with pixels_traveled := px, distance := truncQ (px * KM_PER_PIXEL) }

/-- The tick's effective speed (`update_game` lines 629-632). -/
def effectiveSpeed (g : Game) : ℚ :=
  if g.is_boosting then pymin MAX_BOOST_SPEED (g.obstacle_speed + BOOST_SPEED)
  else g.obstacle_speed

/-- The extra-life block of `update_game` (lines 638-643) acting on
`(extra_lives, last_life_distance)` given the freshly updated distance. -/
def extraLifeCheck (distance lives marker : ℤ) : ℤ × ℤ :=
  if distance ≥ marker + EXTRA_LIFE_DISTANCE ∧ lives < MAX_EXTRA_LIVES then
    (lives + 1, distance)
  else (lives, marker)

/-- `update_game` lines 626-653: frame count, invulnerability countdown,
effective speed, distance, extra lives, passive score, obstacle speed ramp,
difficulty-scaled spawn delay. -/
def progressionPhase (g : Game) : Game :=
  let g := { g with frame_count := g.frame_count + 1, ship := g.ship.update }
  let cs := effectiveSpeed g
  let px := g.pixels_traveled + cs
  let g := { g with current_speed := cs, pixels_traveled := px,
                    distance := truncQ (px * KM_PER_PIXEL) }
  let lm := extraLifeCheck g.distance g.extra_lives g.last_life_distance
  let g := { g with extra_lives := lm.1, last_life_distance := lm.2 }
  let g := if g.frame_count % 60 = 0 then { g with score := g.score + 1 } else g
  let g := { g with obstacle_speed := pymin MAX_OBSTACLE_SPEED (g.obstacle_speed + SPEED_INCREASE_RATE) }
  let adjusted := INITIAL_SPAWN_DELAY / calculate_difficulty_multiplier g.distance
  { g with spawn_delay := pymax MIN_SPAWN_DELAY (adjusted - (g.frame_count : ℚ) * SPAWN_DECREASE_RATE) }

/-- `update_game` lines 655-668: cadence-timed obstacle spawn and Bernoulli
black-hole / portal spawns. -/
def spawnPhase (g : Game) (r : TickRand) : Game :=
  let g := { g with spawn_timer := g.spawn_timer + 1 }
  let g := if (g.spawn_timer : ℚ) ≥ g.spawn_delay then
      { g with obstacles := g.obstacles ++ [⟨(SCREEN_WIDTH : ℚ), r.obstY, r.obstRadius, g.obstacle_speed⟩],
               spawn_timer := 0 }
    else g
  let g := if r.bhSpawn then
      { g with black_holes := g.black_holes ++ [⟨(SCREEN_WIDTH : ℚ), r.bhY, 40, g.obstacle_speed, 0⟩] }
    else g
  if r.portalSpawn then
    { g with portals := g.portals ++ [⟨(SCREEN_WIDTH : ℚ), r.portalY, 35, g.obstacle_speed, 0⟩] }
  else g

/-- One iteration of the obstacle loop (`update_game` lines 673-681): move,
reap off-screen with a score bonus, then collision test against the ship. -/
def obstacleStep (m : ℚ) (g : Game) (o : Obstacle) : Game :=
  let o := o.update m
  let g := if o.is_off_screen then { g with score := g.score + 1 }
           else { g with obstacles := g.obstacles ++ [o] }
  if g.ship.invulnerable = false ∧ (g.ship.get_rect).collides o.get_rect then
    handleCollision g
  else g

/-- The obstacle loop over a snapshot of the list. -/
def obstaclesPhase (m : ℚ) (g : Game) : Game :=
  List.foldl (obstacleStep m) { g with obstacles := [] } g.obstacles

/-- One iteration of the black-hole loop (`update_game` lines 684-692). -/
def blackHoleStep (m : ℚ) (g : Game) (b : BlackHole) : Game :=
  let b := b.update m
  let g := if b.is_off_screen then { g with score := g.score + 5 }
           else { g with black_holes := g.black_holes ++ [b] }
  if g.ship.invulnerable = false ∧ (g.ship.get_rect).collides b.get_rect then
    handleCollision g
  else g

/-- The black-hole loop over a snapshot of the list. -/
def blackHolesPhase (m : ℚ) (g : Game) : Game :=
  List.foldl (blackHoleStep m) { g with black_holes := [] } g.black_holes

/-- One iteration of the portal loop (`update_game` lines 695-704): move,
reap off-screen, and on ship contact teleport, consume the portal and grant
the score bonus.  The second component counts the tick's portal jumps so the
oracle can supply each `random.choice`. -/
def portalStep (m : ℚ) (r : TickRand) (gk : Game × ℕ) (p : Portal) : Game × ℕ :=
  let g := gk.1
  let p := p.update m
  let g := if p.is_off_screen ∨ (g.ship.get_rect).collides p.get_rect then g
           else { g with portals := g.portals ++ [p] }
  if (g.ship.get_rect).collides p.get_rect then
    let g := teleportPlayer g (r.teleportKm gk.2)
    ({ g with score := g.score + 10 }, gk.2 + 1)
  else (g, gk.2)

/-- The portal loop over a snapshot of the list. -/
def portalsPhase (m : ℚ) (r : TickRand) (g : Game) : Game :=
  (List.foldl (portalStep m r) ({ g with portals := [] }, 0) g.portals).1

/-- One iteration of the planet loop (`update_game` lines 707-710). -/
def planetStep (m cs : ℚ) (g : Game) (p : Planet) : Game :=
  let p := p.update m cs
  if p.is_off_screen then g else { g with planets := g.planets ++ [p] }

/-- The planet loop over a snapshot of the list. -/
def planetsPhase (m : ℚ) (g : Game) : Game :=
  List.foldl (planetStep m g.current_speed) { g with planets := [] } g.planets

/-- A milestone firing (`HUD.show_milestone` call): either fixed milestone
number `idx` of `PLANET_MILESTONES`, or procedural milestone number `idx` of
the procedural queue. -/
inductive MEvent where
  | fixedM (idx : ℕ) (name : String)
  | procM (idx : ℕ) (name : String)
  deriving DecidableEq, Repr

/-- `MEvent.isFixed`. -/
def MEvent.isFixed : MEvent → Bool
  | .fixedM _ _ => true
  | .procM _ _ => false

/-- `Game.generate_procedural_milestone` given the oracle's name, category and
threshold step draws. -/
def generateProceduralMilestone (g : Game) (r : TickRand) : Game :=
  { g with
    procedural_milestones := g.procedural_milestones ++ [(r.procName, g.next_procedural_distance, r.procIsGalaxy)],
    next_procedural_distance := g.next_procedural_distance + r.procStep }

/-- The procedural milestone loop (`update_game` lines 738-742): each entry
whose positive threshold is reached fires and has its threshold replaced by
the sentinel `-1`.  `i` is the list index of the head. -/
def procLoop (D : ℤ) (i : ℕ) : List (String × ℤ × Bool) → List (String × ℤ × Bool) × List (ℕ × String)
  | [] => ([], [])
  | e :: rest =>
    let r := procLoop D (i + 1) rest
    if D ≥ e.2.1 ∧ e.2.1 > 0 then ((e.1, -1, e.2.2) :: r.1, (i, e.1) :: r.2)
    else (e :: r.1, r.2)

/-- The milestone block of `update_game` (lines 713-742): fixed phase while
the cursor is inside `PLANET_MILESTONES` (approach spawn of the decorative
planet, then at-most-one firing advancing the cursor, with the Neptune firing
seeding the procedural phase), procedural phase afterwards.  Returns the
updated game and the tick's milestone firings. -/
def milestonePhase (g : Game) (r : TickRand) : Game × List MEvent :=
  if g.milestone_index < PLANET_MILESTONES.length then
    let e := PLANET_MILESTONES.getD g.milestone_index ("", 0, 0)
    let approach := truncQ ((e.2.1 : ℚ) * (9 / 10))
    let g1 :=
      if g.distance ≥ approach ∧ g.planet_shown.getD g.milestone_index false = false then
        { g with planets := g.planets ++ [⟨e.1, ((SCREEN_WIDTH + e.2.2 : ℤ) : ℚ), r.planetY, e.2.2⟩],
                 planet_shown := g.planet_shown.set g.milestone_index true }
      else g
    if g1.distance ≥ e.2.1 then
      let idx := g1.milestone_index
      let g2 := { g1 with last_planet_passed := e.1, milestone_index := idx + 1 }
      let g3 := if e.1 = "Neptune" then
          generateProceduralMilestone { g2 with passed_neptune := true } r
        else g2
      (g3, [MEvent.fixedM idx e.1])
    else (g1, [])
  else if g.passed_neptune then
    let needGen : Bool := match g.procedural_milestones.getLast? with
      | none => true
      | some e => decide (g.distance ≥ e.2.1)
    let g1 := if needGen then generateProceduralMilestone g r else g
    let pr := procLoop g.distance 0 g1.procedural_milestones
    let lpp := (pr.2.getLast?).elim g1.last_planet_passed Prod.snd
    let g2 := { g1 with procedural_milestones := pr.1, last_planet_passed := lpp }
    (g2, pr.2.map fun p => MEvent.procM p.1 p.2)
  else (g, [])

/-- The per-tick body of `update_game` between the early state guard and the
milestone block: progression, spawning, and the four entity loops with
`speed_multiplier = current_speed / obstacle_speed`. -/
def corePhases (g : Game) (r : TickRand) : Game :=
  let g1 := progressionPhase g
  let g2 := spawnPhase g1 r
  let m := g2.current_speed / g2.obstacle_speed
  let g3 := obstaclesPhase m g2
  let g4 := blackHolesPhase m g3
  let g5 := portalsPhase m r g4
  planetsPhase m g5

/-- `Game.update_game`: no-op unless the run state is `RUNNING`. -/
def updateGame (g : Game) (r : TickRand) : Game × List MEvent :=
  if g.state = GState.RUNNING then milestonePhase (corePhases g r) r else (g, [])

/-- The per-tick key state consumed by `Game.handle_input`. -/
structure Keys where
  space : Bool
  l : Bool
  escape : Bool
  k1 : Bool
  k2 : Bool
  k3 : Bool
  k4 : Bool
  w : Bool
  up : Bool
  s : Bool
  down : Bool
  right : Bool
  p : Bool
  r : Bool

/-- `Game.handle_input`. -/
def handleInput (g : Game) (k : Keys) : Game :=
  match g.state with
  | GState.MENU =>
    if k.space then { g with state := GState.COLOR_SELECT }
    else if k.l then { g with state := GState.LEADERBOARD }
    else g
  | GState.LEADERBOARD =>
    if k.escape ∨ k.space then { g with state := GState.MENU } else g
  | GState.COLOR_SELECT =>
    if k.k1 then { resetGame { g with selected_color := "red" } with state := GState.LAUNCH_ANIMATION }
    else if k.k2 then { resetGame { g with selected_color := "green" } with state := GState.LAUNCH_ANIMATION }
    else if k.k3 then { resetGame { g with selected_color := "blue" } with state := GState.LAUNCH_ANIMATION }
    else if k.k4 then { resetGame { g with selected_color := "yellow" } with state := GState.LAUNCH_ANIMATION }
    else g
  | GState.RUNNING =>
    let g := if k.w ∨ k.up then { g with ship := g.ship.move (-1) } else g
    let g := if k.s ∨ k.down then { g with ship := g.ship.move 1 } else g
    let g := { g with is_boosting := k.right }
    if k.p then { g with state := GState.PAUSED } else g
  | GState.PAUSED =>
    if k.p then { g with state := GState.RUNNING } else g
  | GState.GAME_OVER =>
    if k.r then { g with state := GState.COLOR_SELECT }
    else if k.l then { g with state := GState.LEADERBOARD }
    else g
  | GState.LAUNCH_ANIMATION => g

/-- Run `update_game` over a list of per-tick oracles. -/
def runGame (g : Game) : List TickRand → Game
  | [] => g
  | r :: rs => runGame (updateGame g r).1 rs

/-- The milestone firings of each tick of a run. -/
def runEventsList (g : Game) : List TickRand → List (List MEvent)
  | [] => []
  | r :: rs => (updateGame g r).2 :: runEventsList (updateGame g r).1 rs

/-- The Progression Tracker's `advance`: the speed/distance lines of
`update_game` (629-649) restricted to `(obstacle_speed, pixels_traveled)` —
the tick's effective speed is computed from the current base obstacle speed
(`min(MAX_BOOST_SPEED, obstacle_speed + BOOST_SPEED)` while boosting), added
to the pixel total, and the base speed then ramps by `SPEED_INCREASE_RATE`
toward `MAX_OBSTACLE_SPEED` independently of boosting. -/
def advance (boosting : Bool) (s : ℚ × ℚ) : ℚ × ℚ :=
  (pymin MAX_OBSTACLE_SPEED (s.1 + SPEED_INCREASE_RATE),
   s.2 + (if boosting then pymin MAX_BOOST_SPEED (s.1 + BOOST_SPEED) else s.1))

/-- `advance` iterated from a fresh run (`obstacle_speed = 3`, no distance). -/
def advanceN (boosting : Bool) (n : ℕ) : ℚ × ℚ :=
  (advance boosting)^[n] (INITIAL_OBSTACLE_SPEED, 0)

/-! ### Helper lemmas -/

theorem pymin_eq_min (a b : ℚ) : pymin a b = min a b := by
  unfold pymin
  rw [min_def]

theorem pymax_eq_max (a b : ℚ) : pymax a b = max a b := by
  unfold pymax
  rw [max_def]
  split_ifs with h1 h2
  · exact le_antisymm h2 h1
  · rfl
  · rfl
  · exact absurd (le_total a b) (by tauto)

theorem truncQ_mono {a b : ℚ} (h : a ≤ b) : truncQ a ≤ truncQ b := by
  unfold truncQ
  split_ifs with h1 h2 h2
  · exact Int.floor_le_floor h
  · exact absurd (le_trans h1 h) h2
  · have ha : a ≤ 0 := le_of_lt (lt_of_not_le h1)
    have hc : (⌈a⌉ : ℤ) ≤ 0 := by
      have := Int.ceil_le_ceil ha
      simpa using this
    have hf : (0 : ℤ) ≤ ⌊b⌋ := Int.floor_nonneg.mpr h2
    omega
  · exact Int.ceil_le_ceil h

theorem truncQ_nonneg {a : ℚ} (h : 0 ≤ a) : 0 ≤ truncQ a := by
  unfold truncQ
  rw [if_pos h]
  exact Int.floor_nonneg.mpr h

theorem foldl_pres {α β : Type} (f : β → α → β) (P : β → Prop)
    (h : ∀ b a, P b → P (f b a)) : ∀ (l : List α) (b : β), P b → P (List.foldl f b l) := by
  intro l
  induction l with
  | nil => intro b hb; exact hb
  | cons a t ih => intro b hb; exact ih _ (h b a hb)

/-! ### Phase preservation lemmas -/

theorem extraLifeCheck_fst_ge (d l mk : ℤ) : l ≤ (extraLifeCheck d l mk).1 := by
  unfold extraLifeCheck
  split_ifs <;> dsimp <;> omega

theorem progressionPhase_pres (g : Game) :
    (progressionPhase g).state = g.state ∧
    (progressionPhase g).ship = g.ship.update ∧
    (progressionPhase g).scores = g.scores ∧
    (progressionPhase g).obstacles = g.obstacles ∧
    (progressionPhase g).black_holes = g.black_holes ∧
    (progressionPhase g).portals = g.portals ∧
    (progressionPhase g).planets = g.planets ∧
    (progressionPhase g).milestone_index = g.milestone_index ∧
    (progressionPhase g).procedural_milestones = g.procedural_milestones ∧
    (progressionPhase g).passed_neptune = g.passed_neptune ∧
    (progressionPhase g).next_procedural_distance = g.next_procedural_distance ∧
    (progressionPhase g).pixels_traveled = g.pixels_traveled + effectiveSpeed g ∧
    (progressionPhase g).distance = truncQ ((g.pixels_traveled + effectiveSpeed g) * KM_PER_PIXEL) ∧
    g.extra_lives ≤ (progressionPhase g).extra_lives := by
  simp only [progressionPhase]
  split_ifs <;>
    exact ⟨rfl, rfl, rfl, rfl, rfl, rfl, rfl, rfl, rfl, rfl, rfl, rfl, rfl,
      extraLifeCheck_fst_ge _ _ _⟩

theorem spawnPhase_pres (g : Game) (r : TickRand) :
    (spawnPhase g r).state = g.state ∧
    (spawnPhase g r).ship = g.ship ∧
    (spawnPhase g r).scores = g.scores ∧
    (spawnPhase g r).extra_lives = g.extra_lives ∧
    (spawnPhase g r).planets = g.planets ∧
    (spawnPhase g r).milestone_index = g.milestone_index ∧
    (spawnPhase g r).procedural_milestones = g.procedural_milestones ∧
    (spawnPhase g r).passed_neptune = g.passed_neptune ∧
    (spawnPhase g r).next_procedural_distance = g.next_procedural_distance ∧
    (spawnPhase g r).pixels_traveled = g.pixels_traveled ∧
    (spawnPhase g r).distance = g.distance ∧
    (spawnPhase g r).current_speed = g.current_speed ∧
    (spawnPhase g r).obstacle_speed = g.obstacle_speed := by
  simp only [spawnPhase]
  split_ifs <;>
    exact ⟨rfl, rfl, rfl, rfl, rfl, rfl, rfl, rfl, rfl, rfl, rfl, rfl, rfl⟩

theorem handleCollision_pres (g : Game) :
    (handleCollision g).pixels_traveled = g.pixels_traveled ∧
    (handleCollision g).distance = g.distance ∧
    (handleCollision g).milestone_index = g.milestone_index ∧
    (handleCollision g).procedural_milestones = g.procedural_milestones ∧
    (handleCollision g).passed_neptune = g.passed_neptune ∧
    (handleCollision g).next_procedural_distance = g.next_procedural_distance ∧
    (handleCollision g).obstacles = g.obstacles ∧
    (handleCollision g).black_holes = g.black_holes ∧
    (handleCollision g).portals = g.portals ∧
    (handleCollision g).planets = g.planets ∧
    (handleCollision g).current_speed = g.current_speed ∧
    (handleCollision g).obstacle_speed = g.obstacle_speed := by
  unfold handleCollision
  split_ifs <;> simp_all

theorem obstaclesPhase_pres (m : ℚ) (g : Game) :
    (obstaclesPhase m g).pixels_traveled = g.pixels_traveled ∧
    (obstaclesPhase m g).distance = g.distance ∧
    (obstaclesPhase m g).milestone_index = g.milestone_index ∧
    (obstaclesPhase m g).procedural_milestones = g.procedural_milestones ∧
    (obstaclesPhase m g).passed_neptune = g.passed_neptune ∧
    (obstaclesPhase m g).next_procedural_distance = g.next_procedural_distance ∧
    (obstaclesPhase m g).black_holes = g.black_holes ∧
    (obstaclesPhase m g).portals = g.portals ∧
    (obstaclesPhase m g).planets = g.planets ∧
    (obstaclesPhase m g).current_speed = g.current_speed ∧
    (obstaclesPhase m g).obstacle_speed = g.obstacle_speed := by
  unfold obstaclesPhase
  refine foldl_pres (obstacleStep m)
    (fun x => x.pixels_traveled = g.pixels_traveled ∧ x.distance = g.distance ∧
      x.milestone_index = g.milestone_index ∧
      x.procedural_milestones = g.procedural_milestones ∧
      x.passed_neptune = g.passed_neptune ∧
      x.next_procedural_distance = g.next_procedural_distance ∧
      x.black_holes = g.black_holes ∧ x.portals = g.portals ∧ x.planets = g.planets ∧
      x.current_speed = g.current_speed ∧ x.obstacle_speed = g.obstacle_speed)
    ?_ g.obstacles _ (by simp)
  intro b a hb
  simp only [obstacleStep, handleCollision]
  split_ifs <;> simp_all

theorem blackHolesPhase_pres (m : ℚ) (g : Game) :
    (blackHolesPhase m g).pixels_traveled = g.pixels_traveled ∧
    (blackHolesPhase m g).distance = g.distance ∧
    (blackHolesPhase m g).milestone_index = g.milestone_index ∧
    (blackHolesPhase m g).procedural_milestones = g.procedural_milestones ∧
    (blackHolesPhase m g).passed_neptune = g.passed_neptune ∧
    (blackHolesPhase m g).next_procedural_distance = g.next_procedural_distance ∧
    (blackHolesPhase m g).obstacles = g.obstacles ∧
    (blackHolesPhase m g).portals = g.portals ∧
    (blackHolesPhase m g).planets = g.planets ∧
    (blackHolesPhase m g).current_speed = g.current_speed ∧
    (blackHolesPhase m g).obstacle_speed = g.obstacle_speed := by
  unfold blackHolesPhase
  refine foldl_pres (blackHoleStep m)
    (fun x => x.pixels_traveled = g.pixels_traveled ∧ x.distance = g.distance ∧
      x.milestone_index = g.milestone_index ∧
      x.procedural_milestones = g.procedural_milestones ∧
      x.passed_neptune = g.passed_neptune ∧
      x.next_procedural_distance = g.next_procedural_distance ∧
      x.obstacles = g.obstacles ∧ x.portals = g.portals ∧ x.planets = g.planets ∧
      x.current_speed = g.current_speed ∧ x.obstacle_speed = g.obstacle_speed)
    ?_ g.black_holes _ (by simp)
  intro b a hb
  simp only [blackHoleStep, handleCollision]
  split_ifs <;> simp_all

theorem portalsPhase_pres (m : ℚ) (r : TickRand) (g : Game) :
    (portalsPhase m r g).state = g.state ∧
    (portalsPhase m r g).ship = g.ship ∧
    (portalsPhase m r g).scores = g.scores ∧
    (portalsPhase m r g).extra_lives = g.extra_lives ∧
    (portalsPhase m r g).milestone_index = g.milestone_index ∧
    (portalsPhase m r g).procedural_milestones = g.procedural_milestones ∧
    (portalsPhase m r g).passed_neptune = g.passed_neptune ∧
    (portalsPhase m r g).next_procedural_distance = g.next_procedural_distance ∧
    (portalsPhase m r g).obstacles = g.obstacles ∧
    (portalsPhase m r g).black_holes = g.black_holes ∧
    (portalsPhase m r g).planets = g.planets ∧
    (portalsPhase m r g).current_speed = g.current_speed ∧
    (portalsPhase m r g).obstacle_speed = g.obstacle_speed := by
  unfold portalsPhase
  have := foldl_pres (portalStep m r)
    (fun x => x.1.state = g.state ∧ x.1.ship = g.ship ∧ x.1.scores = g.scores ∧
      x.1.extra_lives = g.extra_lives ∧
      x.1.milestone_index = g.milestone_index ∧
      x.1.procedural_milestones = g.procedural_milestones ∧
      x.1.passed_neptune = g.passed_neptune ∧
      x.1.next_procedural_distance = g.next_procedural_distance ∧
      x.1.obstacles = g.obstacles ∧ x.1.black_holes = g.black_holes ∧
      x.1.planets = g.planets ∧
      x.1.current_speed = g.current_speed ∧ x.1.obstacle_speed = g.obstacle_speed)
    ?_ g.portals ({ g with portals := [] }, 0) (by simp)
  · exact this
  · intro b a hb
    simp only [portalStep, teleportPlayer]
    split_ifs <;> simp_all

theorem planetsPhase_pres (m : ℚ) (g : Game) :
    (planetsPhase m g).state = g.state ∧
    (planetsPhase m g).ship = g.ship ∧
    (planetsPhase m g).scores = g.scores ∧
    (planetsPhase m g).extra_lives = g.extra_lives ∧
    (planetsPhase m g).milestone_index = g.milestone_index ∧
    (planetsPhase m g).procedural_milestones = g.procedural_milestones ∧
    (planetsPhase m g).passed_neptune = g.passed_neptune ∧
    (planetsPhase m g).next_procedural_distance = g.next_procedural_distance ∧
    (planetsPhase m g).obstacles = g.obstacles ∧
    (planetsPhase m g).black_holes = g.black_holes ∧
    (planetsPhase m g).portals = g.portals ∧
    (planetsPhase m g).pixels_traveled = g.pixels_traveled ∧
    (planetsPhase m g).distance = g.distance := by
  unfold planetsPhase
  refine foldl_pres (planetStep m g.current_speed)
    (fun x => x.state = g.state ∧ x.ship = g.ship ∧ x.scores = g.scores ∧
      x.extra_lives = g.extra_lives ∧
      x.milestone_index = g.milestone_index ∧
      x.procedural_milestones = g.procedural_milestones ∧
      x.passed_neptune = g.passed_neptune ∧
      x.next_procedural_distance = g.next_procedural_distance ∧
      x.obstacles = g.obstacles ∧ x.black_holes = g.black_holes ∧
      x.portals = g.portals ∧
      x.pixels_traveled = g.pixels_traveled ∧ x.distance = g.distance)
    ?_ g.planets _ (by simp)
  intro b a hb
  simp only [planetStep]
  split_ifs <;> simp_all

theorem milestonePhase_pres (g : Game) (r : TickRand) :
    (milestonePhase g r).1.state = g.state ∧
    (milestonePhase g r).1.ship = g.ship ∧
    (milestonePhase g r).1.scores = g.scores ∧
    (milestonePhase g r).1.extra_lives = g.extra_lives ∧
    (milestonePhase g r).1.obstacles = g.obstacles ∧
    (milestonePhase g r).1.black_holes = g.black_holes ∧
    (milestonePhase g r).1.portals = g.portals ∧
    (milestonePhase g r).1.pixels_traveled = g.pixels_traveled ∧
    (milestonePhase g r).1.distance = g.distance := by
  simp only [milestonePhase, generateProceduralMilestone]
  split_ifs <;> simp_all

/-! ### Invulnerability lemmas -/

theorem Spaceship.update_invuln {s : Spaceship} (h : s.invulnerable = true)
    (ht : 1 < s.invulnerable_timer) : (s.update).invulnerable = true := by
  unfold Spaceship.update
  rw [if_pos h]
  have : ¬ s.invulnerable_timer - 1 ≤ 0 := by omega
  simp [this, h]

theorem obstFold_invuln (m : ℚ) (l : List Obstacle) :
    ∀ g : Game, g.ship.invulnerable = true →
      (List.foldl (obstacleStep m) g l).ship = g.ship ∧
      (List.foldl (obstacleStep m) g l).extra_lives = g.extra_lives ∧
      (List.foldl (obstacleStep m) g l).state = g.state ∧
      (List.foldl (obstacleStep m) g l).scores = g.scores ∧
      (List.foldl (obstacleStep m) g l).obstacles
        = g.obstacles ++ (l.map (fun o => o.update m)).filter (fun o => !decide o.is_off_screen) := by
  induction l with
  | nil => intro g h; simp
  | cons a t ih =>
    intro g h
    have hstep : obstacleStep m g a
        = if (a.update m).is_off_screen then { g with score := g.score + 1 }
          else { g with obstacles := g.obstacles ++ [a.update m] } := by
      simp only [obstacleStep]
      split_ifs <;> simp_all
    rw [List.foldl_cons, hstep]
    by_cases hoff : (a.update m).is_off_screen
    · rw [if_pos hoff]
      obtain ⟨i1, i2, i3, i4, i5⟩ := ih { g with score := g.score + 1 } (by simpa using h)
      refine ⟨by simpa using i1, by simpa using i2, by simpa using i3, by simpa using i4, ?_⟩
      rw [i5]
      simp [hoff]
    · rw [if_neg hoff]
      obtain ⟨i1, i2, i3, i4, i5⟩ :=
        ih { g with obstacles := g.obstacles ++ [a.update m] } (by simpa using h)
      refine ⟨by simpa using i1, by simpa using i2, by simpa using i3, by simpa using i4, ?_⟩
      rw [i5]
      simp [hoff]

theorem bhFold_invuln (m : ℚ) (l : List BlackHole) :
    ∀ g : Game, g.ship.invulnerable = true →
      (List.foldl (blackHoleStep m) g l).ship = g.ship ∧
      (List.foldl (blackHoleStep m) g l).extra_lives = g.extra_lives ∧
      (List.foldl (blackHoleStep m) g l).state = g.state ∧
      (List.foldl (blackHoleStep m) g l).scores = g.scores ∧
      (List.foldl (blackHoleStep m) g l).black_holes
        = g.black_holes ++ (l.map (fun b => b.update m)).filter (fun b => !decide b.is_off_screen) := by
  induction l with
  | nil => intro g h; simp
  | cons a t ih =>
    intro g h
    have hstep : blackHoleStep m g a
        = if (a.update m).is_off_screen then { g with score := g.score + 5 }
          else { g with black_holes := g.black_holes ++ [a.update m] } := by
      simp only [blackHoleStep]
      split_ifs <;> simp_all
    rw [List.foldl_cons, hstep]
    by_cases hoff : (a.update m).is_off_screen
    · rw [if_pos hoff]
      obtain ⟨i1, i2, i3, i4, i5⟩ := ih { g with score := g.score + 5 } (by simpa using h)
      refine ⟨by simpa using i1, by simpa using i2, by simpa using i3, by simpa using i4, ?_⟩
      rw [i5]
      simp [hoff]
    · rw [if_neg hoff]
      obtain ⟨i1, i2, i3, i4, i5⟩ :=
        ih { g with black_holes := g.black_holes ++ [a.update m] } (by simpa using h)
      refine ⟨by simpa using i1, by simpa using i2, by simpa using i3, by simpa using i4, ?_⟩
      rw [i5]
      simp [hoff]

theorem obstaclesPhase_invuln (m : ℚ) (g : Game) (h : g.ship.invulnerable = true) :
    (obstaclesPhase m g).ship = g.ship ∧
    (obstaclesPhase m g).extra_lives = g.extra_lives ∧
    (obstaclesPhase m g).state = g.state ∧
    (obstaclesPhase m g).scores = g.scores ∧
    (obstaclesPhase m g).obstacles
      = (g.obstacles.map (fun o => o.update m)).filter (fun o => !decide o.is_off_screen) := by
  unfold obstaclesPhase
  obtain ⟨i1, i2, i3, i4, i5⟩ :=
    obstFold_invuln m g.obstacles { g with obstacles := [] } (by simpa using h)
  exact ⟨by simpa using i1, by simpa using i2, by simpa using i3, by simpa using i4,
    by simpa using i5⟩

theorem blackHolesPhase_invuln (m : ℚ) (g : Game) (h : g.ship.invulnerable = true) :
    (blackHolesPhase m g).ship = g.ship ∧
    (blackHolesPhase m g).extra_lives = g.extra_lives ∧
    (blackHolesPhase m g).state = g.state ∧
    (blackHolesPhase m g).scores = g.scores ∧
    (blackHolesPhase m g).black_holes
      = (g.black_holes.map (fun b => b.update m)).filter (fun b => !decide b.is_off_screen) := by
  unfold blackHolesPhase
  obtain ⟨i1, i2, i3, i4, i5⟩ :=
    bhFold_invuln m g.black_holes { g with black_holes := [] } (by simpa using h)
  exact ⟨by simpa using i1, by simpa using i2, by simpa using i3, by simpa using i4,
    by simpa using i5⟩

theorem corePhases_invuln (g : Game) (r : TickRand)
    (h : g.ship.invulnerable = true) (ht : 1 < g.ship.invulnerable_timer) :
    (corePhases g r).state = g.state ∧ g.extra_lives ≤ (corePhases g r).extra_lives := by
  have hinv1 : (g.ship.update).invulnerable = true := Spaceship.update_invuln h ht
  obtain ⟨p1, p2, _, _, _, _, _, _, _, _, _, _, _, p14⟩ := progressionPhase_pres g
  obtain ⟨s1, s2, _, s4, _, _, _, _, _, _, _, _, _⟩ :=
    spawnPhase_pres (progressionPhase g) r
  set gs := spawnPhase (progressionPhase g) r with hgs
  set mm := gs.current_speed / gs.obstacle_speed with hmm
  have hinv2 : gs.ship.invulnerable = true := by rw [s2, p2]; exact hinv1
  obtain ⟨o1, o2, o3, _, _⟩ := obstaclesPhase_invuln mm gs hinv2
  set go := obstaclesPhase mm gs with hgo
  have hinv3 : go.ship.invulnerable = true := by rw [o1]; exact hinv2
  obtain ⟨b1, b2, b3, _, _⟩ := blackHolesPhase_invuln mm go hinv3
  set gb := blackHolesPhase mm go with hgb
  obtain ⟨q1, _, _, q4, _, _, _, _, _, _, _, _, _⟩ := portalsPhase_pres mm r gb
  set gq := portalsPhase mm r gb with hgq
  obtain ⟨l1, _, _, l4, _, _, _, _, _, _, _, _, _⟩ := planetsPhase_pres mm gq
  have hcore : corePhases g r = planetsPhase mm gq := rfl
  rw [hcore]
  constructor
  · rw [l1, q1, b3, o3, s1, p1]
  · calc g.extra_lives ≤ (progressionPhase g).extra_lives := p14
      _ = (planetsPhase mm gq).extra_lives := by rw [l4, q4, b2, o2, s4]

/-- C3: an overlap between the ship and an asteroid or black hole while the
invulnerability window is open is ignored entirely by the encounter loops —
the ship, the spare-life count, the run state and the pending score records
are untouched, and entities are only removed for being off-screen, never for
the overlap; consequently a whole `RUNNING` tick that starts with the window
open (by more than the one frame the tick itself consumes) keeps the run
`RUNNING` and never lowers the spare-life count. -/
theorem C3_invulnerable_overlap_ignored (g : Game) (m : ℚ) (r : TickRand)
    (h : g.ship.invulnerable = true) :
    ((obstaclesPhase m g).ship = g.ship ∧
     (obstaclesPhase m g).extra_lives = g.extra_lives ∧
     (obstaclesPhase m g).state = g.state ∧
     (obstaclesPhase m g).scores = g.scores ∧
     (obstaclesPhase m g).obstacles
       = (g.obstacles.map (fun o => o.update m)).filter (fun o => !decide o.is_off_screen)) ∧
    ((blackHolesPhase m g).ship = g.ship ∧
     (blackHolesPhase m g).extra_lives = g.extra_lives ∧
     (blackHolesPhase m g).state = g.state ∧
     (blackHolesPhase m g).scores = g.scores ∧
     (blackHolesPhase m g).black_holes
       = (g.black_holes.map (fun b => b.update m)).filter (fun b => !decide b.is_off_screen)) ∧
    (g.state = GState.RUNNING → 1 < g.ship.invulnerable_timer →
      (updateGame g r).1.state = GState.RUNNING ∧
      g.extra_lives ≤ (updateGame g r).1.extra_lives) := by
  refine ⟨obstaclesPhase_invuln m g h, blackHolesPhase_invuln m g h, ?_⟩
  intro hrun ht
  have e : updateGame g r = milestonePhase (corePhases g r) r := by
    unfold updateGame
    rw [if_pos hrun]
  obtain ⟨c1, c2⟩ := corePhases_invuln g r h ht
  obtain ⟨m1, _, _, m4, _, _, _, _, _⟩ := milestonePhase_pres (corePhases g r) r
  rw [e]
  constructor
  · rw [m1, c1, hrun]
  · rw [m4]
    exact c2

/-! ### Shared concrete states for witnesses and counterexamples -/

/-- A reachable-shaped running game used to instantiate theorems: ship at its
start position, two asteroids overlapping the ship's volume, no spare lives,
an empty leaderboard, at the very first tick of a run. -/
def demoGame : Game :=
  { state := GState.RUNNING, selected_color := "blue",
    ship := Spaceship.mk0 100 300 (SHIP_COLORS "blue"),
    obstacles := [⟨130, 310, 20, 3⟩, ⟨135, 305, 18, 3⟩],
    black_holes := [], portals := [], planets := [],
    launch_timer := 0, distance := 0, pixels_traveled := 0, current_speed := 3,
    score := 0, obstacle_speed := 3, spawn_delay := 90, spawn_timer := 0,
    frame_count := 0, is_boosting := false, extra_lives := 0, last_life_distance := 0,
    milestone_index := 0, last_planet_passed := "Earth", passed_neptune := false,
    procedural_milestones := [], next_procedural_distance := 5000000000,
    planet_shown := [false, false, false, false, false, false], scores := [] }

/-- A fixed random oracle: no Bernoulli spawns, smallest portal jump. -/
def demoRand : TickRand :=
  { obstY := 300, obstRadius := 20, bhSpawn := false, bhY := 0, portalSpawn := false,
    portalY := 0, teleportKm := fun _ => 100, planetY := 300, procName := "Zeta-Prime",
    procIsGalaxy := false, procStep := 300000000 }

/-! ### C1 -/

set_option maxRecDepth 4000 in
/-- C1 (falsified by the code): in `demoGame` the ship's volume overlaps two
asteroids on the same `RUNNING` tick with zero spare lives.  The tick does
transition the run state to `GAME_OVER`, but `handle_collision` runs once per
overlapping obstacle, so `Leaderboard.add_score` receives TWO score records
for the single run instead of exactly one. -/
theorem C1_two_score_records_on_double_overlap :
    demoGame.extra_lives = 0 ∧ demoGame.state = GState.RUNNING ∧
    demoGame.scores = [] ∧ demoGame.ship.invulnerable = false ∧
    (updateGame demoGame demoRand).1.state = GState.GAME_OVER ∧
    (updateGame demoGame demoRand).1.scores.length = 2 := by
  with_unfolding_all decide

/-- `demoGame` with the invulnerability grace window freshly opened. -/
def demoInvulnGame : Game :=
  { demoGame with ship := demoGame.ship.set_invulnerable 120 }

/-- Witness for C3: on a concrete invulnerable game overlapping two asteroids,
the obstacle loop leaves the spare lives alone and the full tick keeps the run
`RUNNING` without lowering the life count. -/
theorem C3_witness :
    (obstaclesPhase 1 demoInvulnGame).extra_lives = demoInvulnGame.extra_lives ∧
    (updateGame demoInvulnGame demoRand).1.state = GState.RUNNING ∧
    demoInvulnGame.extra_lives ≤ (updateGame demoInvulnGame demoRand).1.extra_lives :=
  ⟨(C3_invulnerable_overlap_ignored demoInvulnGame 1 demoRand rfl).1.2.1,
   ((C3_invulnerable_overlap_ignored demoInvulnGame 1 demoRand rfl).2.2 rfl (by decide)).1,
   ((C3_invulnerable_overlap_ignored demoInvulnGame 1 demoRand rfl).2.2 rfl (by decide)).2⟩

/-! ### C2 -/

/-- C2: the difficulty multiplier is `min (1 + 0.15·⌊d/500000000⌋) 3`, a
deterministic function of distance alone; it is non-decreasing, equals `1` at
`d = 0`, `1.15` at `d = 500000000`, `3` at `d = 2·10¹²`, and never
exceeds `3`. -/
theorem C2_difficulty_multiplier_spec (d e : ℤ) (hd : 0 ≤ d) (hde : d ≤ e) :
    calculate_difficulty_multiplier d = min (1 + ((d / 500000000 : ℤ) : ℚ) * (15 / 100)) 3 ∧
    calculate_difficulty_multiplier d ≤ calculate_difficulty_multiplier e ∧
    calculate_difficulty_multiplier 0 = 1 ∧
    calculate_difficulty_multiplier 500000000 = 115 / 100 ∧
    calculate_difficulty_multiplier 2000000000000 = 3 ∧
    calculate_difficulty_multiplier d ≤ 3 := by
  have hdiv : ∀ x : ℤ, Int.fdiv x 500000000 = x / 500000000 := fun x =>
    Int.fdiv_eq_ediv x (by norm_num)
  refine ⟨?_, ?_, by with_unfolding_all decide, by with_unfolding_all decide, by with_unfolding_all decide, ?_⟩
  · unfold calculate_difficulty_multiplier
    rw [pymin_eq_min, hdiv]
  · unfold calculate_difficulty_multiplier
    rw [pymin_eq_min, pymin_eq_min]
    have h1 : Int.fdiv d 500000000 ≤ Int.fdiv e 500000000 := by
      rw [hdiv, hdiv]
      exact Int.ediv_le_ediv (by norm_num) hde
    have h2 : ((Int.fdiv d 500000000 : ℤ) : ℚ) ≤ ((Int.fdiv e 500000000 : ℤ) : ℚ) := by
      exact_mod_cast h1
    exact min_le_min (by linarith) le_rfl
  · unfold calculate_difficulty_multiplier
    rw [pymin_eq_min]
    exact min_le_right _ _

/-- Witness for C2 at `d = 500000000`, `e = 600000000`. -/
theorem C2_witness :
    calculate_difficulty_multiplier 500000000 = 115 / 100 :=
  (C2_difficulty_multiplier_spec 500000000 600000000 (by decide) (by decide)).2.2.2.1

/-! ### C5 -/

theorem advance_fst (b : Bool) (s : ℚ × ℚ) :
    (advance b s).1 = pymin MAX_OBSTACLE_SPEED (s.1 + SPEED_INCREASE_RATE) := rfl

theorem advance_snd_false (s : ℚ × ℚ) : (advance false s).2 = s.2 + s.1 := rfl

theorem advance_snd_true (s : ℚ × ℚ) :
    (advance true s).2 = s.2 + pymin MAX_BOOST_SPEED (s.1 + BOOST_SPEED) := rfl

theorem advanceN_aux (n : ℕ) :
    (advanceN false n).1 = (advanceN true n).1 ∧
    (advanceN false n).1 ≤ MAX_BOOST_SPEED ∧
    (advanceN false n).2 ≤ (advanceN true n).2 := by
  induction n with
  | zero =>
    refine ⟨rfl, ?_, le_rfl⟩
    show (INITIAL_OBSTACLE_SPEED, (0 : ℚ)).1 ≤ MAX_BOOST_SPEED
    unfold INITIAL_OBSTACLE_SPEED MAX_BOOST_SPEED
    norm_num
  | succ n ih =>
    obtain ⟨h1, h2, h3⟩ := ih
    unfold advanceN at h1 h2 h3 ⊢
    rw [Function.iterate_succ_apply', Function.iterate_succ_apply']
    refine ⟨?_, ?_, ?_⟩
    · rw [advance_fst, advance_fst, h1]
    · rw [advance_fst, pymin_eq_min]
      have hmb : MAX_OBSTACLE_SPEED ≤ MAX_BOOST_SPEED := by
        unfold MAX_OBSTACLE_SPEED MAX_BOOST_SPEED
        norm_num
      exact le_trans (min_le_left _ _) hmb
    · rw [advance_snd_false, advance_snd_true, pymin_eq_min]
      have hle : ((advance false)^[n] (INITIAL_OBSTACLE_SPEED, 0)).1
          ≤ min MAX_BOOST_SPEED (((advance true)^[n] (INITIAL_OBSTACLE_SPEED, 0)).1 + BOOST_SPEED) := by
        rw [← h1]
        refine le_min h2 ?_
        unfold BOOST_SPEED
        linarith
      exact add_le_add h3 hle

/-- C5: for every `N`, `N` ticks of the progression tracker's `advance` with
`boosting = false` leave the base speed ramp identical to the boosted run and
yield pixel and kilometre totals no greater than `N` boosted ticks. -/
theorem C5_boosting_dominates (n : ℕ) :
    (advanceN false n).1 = (advanceN true n).1 ∧
    (advanceN false n).2 ≤ (advanceN true n).2 ∧
    truncQ ((advanceN false n).2 * KM_PER_PIXEL) ≤ truncQ ((advanceN true n).2 * KM_PER_PIXEL) := by
  obtain ⟨h1, _, h3⟩ := advanceN_aux n
  refine ⟨h1, h3, truncQ_mono ?_⟩
  have : (0 : ℚ) ≤ KM_PER_PIXEL := by unfold KM_PER_PIXEL; norm_num
  exact mul_le_mul_of_nonneg_right h3 this

/-! ### C7 -/

/-- C7: a collision handled in the `Active` state with one spare life and no
invulnerability window leaves zero spare lives, a 120-tick invulnerability
window, and the run still `RUNNING`. -/
theorem C7_life_loss_grants_grace (g : Game) (h1 : g.state = GState.RUNNING)
    (h2 : g.extra_lives = 1) (h3 : g.ship.invulnerable_timer = 0) :
    (handleCollision g).extra_lives = 0 ∧
    (handleCollision g).ship.invulnerable = true ∧
    (handleCollision g).ship.invulnerable_timer = 120 ∧
    (handleCollision g).state = GState.RUNNING := by
  simp [handleCollision, h2, Spaceship.set_invulnerable, h1]

/-- Witness for C7 on a concrete game with one spare life. -/
theorem C7_witness :
    (handleCollision { demoGame with extra_lives := 1 }).extra_lives = 0 ∧
    (handleCollision { demoGame with extra_lives := 1 }).ship.invulnerable = true ∧
    (handleCollision { demoGame with extra_lives := 1 }).ship.invulnerable_timer = 120 ∧
    (handleCollision { demoGame with extra_lives := 1 }).state = GState.RUNNING :=
  C7_life_loss_grants_grace { demoGame with extra_lives := 1 } rfl rfl rfl

/-! ### C9 -/

/-- C9: at the cap of `3` spare lives a qualifying distance changes neither the
life count nor the last-life marker; below the cap a qualifying distance grants
one life and moves the marker to the current distance (so after a life loss the
stale marker grants again on the next qualifying tick); the extra-life check
and `handle_collision` both keep spare lives within `0..3`. -/
theorem C9_life_cap_and_marker :
    (∀ d m : ℤ, extraLifeCheck d MAX_EXTRA_LIVES m = (MAX_EXTRA_LIVES, m)) ∧
    (∀ d m lives : ℤ, lives < MAX_EXTRA_LIVES → d ≥ m + EXTRA_LIFE_DISTANCE →
      extraLifeCheck d lives m = (lives + 1, d)) ∧
    (∀ d m lives : ℤ, 0 ≤ lives → lives ≤ MAX_EXTRA_LIVES →
      0 ≤ (extraLifeCheck d lives m).1 ∧ (extraLifeCheck d lives m).1 ≤ MAX_EXTRA_LIVES) ∧
    (∀ g : Game, 0 ≤ g.extra_lives → g.extra_lives ≤ MAX_EXTRA_LIVES →
      0 ≤ (handleCollision g).extra_lives ∧ (handleCollision g).extra_lives ≤ MAX_EXTRA_LIVES) := by
  refine ⟨?_, ?_, ?_, ?_⟩
  · intro d m
    simp [extraLifeCheck]
  · intro d m lives h1 h2
    rw [extraLifeCheck, if_pos ⟨h2, h1⟩]
  · intro d m lives h1 h2
    unfold extraLifeCheck
    split_ifs <;> constructor <;> simp <;> omega
  · intro g h1 h2
    unfold handleCollision
    split_ifs with h <;> constructor <;> simp <;> omega

/-- Witness for C9: a qualifying tick at the cap leaves lives and marker
alone. -/
theorem C9_witness :
    extraLifeCheck 2000000000 MAX_EXTRA_LIVES 0 = (MAX_EXTRA_LIVES, 0) :=
  C9_life_cap_and_marker.1 2000000000 0

/-! ### C8 -/

/-- C8: a tick in the `Paused` state changes nothing at all; the pause toggle
from `Active` changes no Progression, Registry or Milestone state; the resume
toggle restores `Active` and changes nothing else. -/
theorem C8_pause_preserves_core :
    (∀ (g : Game) (r : TickRand), g.state = GState.PAUSED → updateGame g r = (g, [])) ∧
    (∀ (g : Game) (k : Keys), g.state = GState.PAUSED → k.p = true →
      handleInput g k = { g with state := GState.RUNNING }) ∧
    (∀ (g : Game) (k : Keys), g.state = GState.RUNNING → k.p = true →
      (handleInput g k).state = GState.PAUSED ∧
      (handleInput g k).distance = g.distance ∧
      (handleInput g k).pixels_traveled = g.pixels_traveled ∧
      (handleInput g k).current_speed = g.current_speed ∧
      (handleInput g k).obstacle_speed = g.obstacle_speed ∧
      (handleInput g k).score = g.score ∧
      (handleInput g k).extra_lives = g.extra_lives ∧
      (handleInput g k).obstacles = g.obstacles ∧
      (handleInput g k).black_holes = g.black_holes ∧
      (handleInput g k).portals = g.portals ∧
      (handleInput g k).planets = g.planets ∧
      (handleInput g k).milestone_index = g.milestone_index ∧
      (handleInput g k).procedural_milestones = g.procedural_milestones ∧
      (handleInput g k).next_procedural_distance = g.next_procedural_distance) := by
  refine ⟨?_, ?_, ?_⟩
  · intro g r h
    simp [updateGame, h]
  · intro g k h hk
    simp [handleInput, h, hk]
  · intro g k h hk
    simp only [handleInput, h, hk]
    split_ifs <;> simp

/-- Witness for C8: a paused tick on a concrete game is the identity. -/
theorem C8_witness :
    updateGame { demoGame with state := GState.PAUSED } demoRand
      = ({ demoGame with state := GState.PAUSED }, []) :=
  C8_pause_preserves_core.1 { demoGame with state := GState.PAUSED } demoRand rfl

/-! ### C4 -/

theorem teleport_options_pos : ∀ x ∈ teleport_options, 0 < x := by decide

theorem effectiveSpeed_nonneg (g : Game) (h : 0 ≤ g.obstacle_speed) :
    0 ≤ effectiveSpeed g := by
  unfold effectiveSpeed
  split_ifs
  · rw [pymin_eq_min]
    refine le_min ?_ ?_
    · unfold MAX_BOOST_SPEED
      norm_num
    · unfold BOOST_SPEED
      linarith
  · exact h

theorem portalsPhase_dist (m : ℚ) (r : TickRand) (g : Game) (p0 : ℚ)
    (hr : ∀ k, 0 < r.teleportKm k)
    (hb1 : p0 ≤ g.pixels_traveled)
    (hb2 : g.distance = truncQ (g.pixels_traveled * KM_PER_PIXEL)) :
    p0 ≤ (portalsPhase m r g).pixels_traveled ∧
    (portalsPhase m r g).distance
      = truncQ ((portalsPhase m r g).pixels_traveled * KM_PER_PIXEL) := by
  unfold portalsPhase
  have := foldl_pres (portalStep m r)
    (fun x => p0 ≤ x.1.pixels_traveled ∧
      x.1.distance = truncQ (x.1.pixels_traveled * KM_PER_PIXEL))
    ?_ g.portals ({ g with portals := [] }, 0) (by exact ⟨hb1, hb2⟩)
  · exact this
  · intro b a hb
    obtain ⟨i1, i2⟩ := hb
    have hkm : (0 : ℚ) < ((r.teleportKm b.2 : ℤ) : ℚ) := by exact_mod_cast hr b.2
    have hK : (0 : ℚ) < KM_PER_PIXEL := by unfold KM_PER_PIXEL; norm_num
    simp only [portalStep, teleportPlayer]
    split_ifs <;> refine ⟨?_, ?_⟩ <;> simp_all
    all_goals
      have hkm2 : (0 : ℚ) < ((r.teleportKm b.2 : ℤ) : ℚ) := by exact_mod_cast hr b.2
      have hq : 0 < ((r.teleportKm b.2 : ℤ) : ℚ) / KM_PER_PIXEL := div_pos hkm2 hK
      linarith

/-- C4: a fresh run starts at distance 0, and a `RUNNING` tick — including any
portal teleports it applies — never decreases the cumulative distance and
never makes it negative. -/
theorem C4_distance_nonneg_monotone (g : Game) (r : TickRand)
    (h1 : g.state = GState.RUNNING) (h2 : 0 ≤ g.obstacle_speed)
    (h3 : 0 ≤ g.pixels_traveled)
    (h4 : g.distance = truncQ (g.pixels_traveled * KM_PER_PIXEL))
    (h5 : ∀ k, r.teleportKm k ∈ teleport_options) :
    (resetGame g).distance = 0 ∧
    g.distance ≤ (updateGame g r).1.distance ∧
    0 ≤ (updateGame g r).1.distance := by
  have hK : (0 : ℚ) ≤ KM_PER_PIXEL := by unfold KM_PER_PIXEL; norm_num
  have e : updateGame g r = milestonePhase (corePhases g r) r := by
    unfold updateGame
    rw [if_pos h1]
  obtain ⟨_, _, _, _, _, _, _, _, _, _, _, p12, p13, _⟩ := progressionPhase_pres g
  obtain ⟨_, _, _, _, _, _, _, _, _, s10, s11, _, _⟩ :=
    spawnPhase_pres (progressionPhase g) r
  set gs := spawnPhase (progressionPhase g) r with hgs
  set mm := gs.current_speed / gs.obstacle_speed with hmm
  obtain ⟨o1, o2, _, _, _, _, _, _, _, _, _⟩ := obstaclesPhase_pres mm gs
  set go := obstaclesPhase mm gs with hgo
  obtain ⟨b1, b2, _, _, _, _, _, _, _, _, _⟩ := blackHolesPhase_pres mm go
  set gb := blackHolesPhase mm go with hgb
  have hpx1 : g.pixels_traveled ≤ gb.pixels_traveled := by
    rw [b1, o1, s10, p12]
    have := effectiveSpeed_nonneg g h2
    linarith
  have hd1 : gb.distance = truncQ (gb.pixels_traveled * KM_PER_PIXEL) := by
    rw [b2, o2, s11, p13, b1, o1, s10, p12]
  obtain ⟨q1, q2⟩ := portalsPhase_dist mm r gb g.pixels_traveled
    (fun k => teleport_options_pos _ (h5 k)) hpx1 hd1
  set gq := portalsPhase mm r gb with hgq
  obtain ⟨_, _, _, _, _, _, _, _, _, _, _, l12, l13⟩ := planetsPhase_pres mm gq
  obtain ⟨_, _, _, _, _, _, _, m8, m9⟩ := milestonePhase_pres (planetsPhase mm gq) r
  have hcore : corePhases g r = planetsPhase mm gq := rfl
  have hdist : (updateGame g r).1.distance = truncQ (gq.pixels_traveled * KM_PER_PIXEL) := by
    rw [e, hcore, m9, l13, q2]
  refine ⟨rfl, ?_, ?_⟩
  · rw [hdist, h4]
    exact truncQ_mono (mul_le_mul_of_nonneg_right q1 hK)
  · rw [hdist]
    exact truncQ_nonneg (mul_nonneg (le_trans h3 q1) hK)

/-- Witness for C4 at the concrete first tick of a run. -/
theorem C4_witness :
    demoGame.distance ≤ (updateGame demoGame demoRand).1.distance ∧
    0 ≤ (updateGame demoGame demoRand).1.distance := by
  have h5 : ∀ k, demoRand.teleportKm k ∈ teleport_options := by
    intro k
    show (100 : ℤ) ∈ teleport_options
    decide
  exact ⟨(C4_distance_nonneg_monotone demoGame demoRand rfl
      (by with_unfolding_all decide) (by with_unfolding_all decide)
      (by with_unfolding_all decide) h5).2.1,
    (C4_distance_nonneg_monotone demoGame demoRand rfl
      (by with_unfolding_all decide) (by with_unfolding_all decide)
      (by with_unfolding_all decide) h5).2.2⟩

/-! ### C6 and C10: milestone machinery -/

theorem procLoop_fst_get (D : ℤ) :
    ∀ (l : List (String × ℤ × Bool)) (i j : ℕ),
      (procLoop D i l).1[j]? = (l[j]?).map (fun e =>
        if D ≥ e.2.1 ∧ e.2.1 > 0 then (e.1, -1, e.2.2) else e) := by
  intro l
  induction l with
  | nil => intro i j; simp [procLoop]
  | cons e rest ih =>
    intro i j
    cases j with
    | zero =>
      simp only [procLoop]
      split_ifs with hc <;> simp [hc]
    | succ j =>
      simp only [procLoop]
      split_ifs with hc <;> simpa using ih (i + 1) j

theorem procLoop_mem_snd (D : ℤ) :
    ∀ (l : List (String × ℤ × Bool)) (i k : ℕ) (n : String),
      (k, n) ∈ (procLoop D i l).2 ↔
        ∃ j e, k = i + j ∧ l[j]? = some e ∧ n = e.1 ∧ D ≥ e.2.1 ∧ e.2.1 > 0 := by
  intro l
  induction l with
  | nil =>
    intro i k n
    simp [procLoop]
  | cons e rest ih =>
    intro i k n
    simp only [procLoop]
    split_ifs with hc
    · dsimp only
      constructor
      · intro hm
        rcases List.mem_cons.mp hm with h0 | h1
        · simp only [Prod.mk.injEq] at h0
          obtain ⟨hk, hn⟩ := h0
          exact ⟨0, e, by omega, by simp, hn, hc.1, hc.2⟩
        · obtain ⟨j, e1, hj, hget, hn, hd1, hd2⟩ := (ih (i + 1) k n).mp h1
          exact ⟨j + 1, e1, by omega, by simpa using hget, hn, hd1, hd2⟩
      · rintro ⟨j, e1, hj, hget, hn, hd1, hd2⟩
        cases j with
        | zero =>
          simp only [List.getElem?_cons_zero, Option.some.injEq] at hget
          subst hget
          have hk : k = i := by omega
          subst hk
          subst hn
          exact List.mem_cons_self _ _
        | succ j =>
          exact List.mem_cons_of_mem _
            ((ih (i + 1) k n).mpr ⟨j, e1, by omega, by simpa using hget, hn, hd1, hd2⟩)
    · dsimp only
      constructor
      · intro hm
        obtain ⟨j, e1, hj, hget, hn, hd1, hd2⟩ := (ih (i + 1) k n).mp hm
        exact ⟨j + 1, e1, by omega, by simpa using hget, hn, hd1, hd2⟩
      · rintro ⟨j, e1, hj, hget, hn, hd1, hd2⟩
        cases j with
        | zero =>
          simp only [List.getElem?_cons_zero, Option.some.injEq] at hget
          subst hget
          exact absurd ⟨hd1, hd2⟩ hc
        | succ j =>
          exact (ih (i + 1) k n).mpr ⟨j, e1, by omega, by simpa using hget, hn, hd1, hd2⟩

theorem milestonePhase_cursor (g : Game) (r : TickRand) :
    (milestonePhase g r).1.milestone_index = g.milestone_index ∨
    (milestonePhase g r).1.milestone_index = g.milestone_index + 1 := by
  simp only [milestonePhase, generateProceduralMilestone]
  split_ifs <;> simp

theorem milestonePhase_fixed_mem (g : Game) (r : TickRand) (i : ℕ) (n : String) :
    MEvent.fixedM i n ∈ (milestonePhase g r).2 ↔
      (g.milestone_index < PLANET_MILESTONES.length ∧ i = g.milestone_index ∧
       n = (PLANET_MILESTONES.getD i ("", 0, 0)).1 ∧
       g.distance ≥ (PLANET_MILESTONES.getD i ("", 0, 0)).2.1) := by
  simp only [milestonePhase, generateProceduralMilestone]
  split_ifs <;> simp_all

theorem milestonePhase_fixed_cursor (g : Game) (r : TickRand) (i : ℕ) (n : String)
    (hm : MEvent.fixedM i n ∈ (milestonePhase g r).2) :
    (milestonePhase g r).1.milestone_index = i + 1 := by
  have h := (milestonePhase_fixed_mem g r i n).mp hm
  simp only [milestonePhase, generateProceduralMilestone] at hm ⊢
  split_ifs at hm ⊢ <;> simp_all

theorem countP_isFixed_map_proc (l : List (ℕ × String)) :
    (l.map (fun p => MEvent.procM p.1 p.2)).countP MEvent.isFixed = 0 := by
  induction l with
  | nil => rfl
  | cons x t ih => simpa [List.countP_cons, MEvent.isFixed] using ih

theorem countP_comp_proc (l : List (ℕ × String)) :
    l.countP (MEvent.isFixed ∘ fun p => MEvent.procM p.1 p.2) = 0 := by
  induction l with
  | nil => rfl
  | cons x t ih => simpa [List.countP_cons, MEvent.isFixed] using ih

theorem milestonePhase_fixed_count (g : Game) (r : TickRand) :
    (milestonePhase g r).2.countP MEvent.isFixed ≤ 1 := by
  simp only [milestonePhase, generateProceduralMilestone]
  split_ifs <;>
    simp [MEvent.isFixed, List.countP_cons, countP_isFixed_map_proc, countP_comp_proc]

theorem proc_nofire_pair (D : ℤ) (l : List (String × ℤ × Bool)) (i : ℕ) (n : String)
    (th : ℤ) (gal : Bool) (hget : l[i]? = some (n, th, gal)) (hth : th ≤ 0)
    (n' : String) (hp : (i, n') ∈ (procLoop D 0 l).2) : False := by
  obtain ⟨j, e1, hj, hget1, hn, hd1, hd2⟩ := (procLoop_mem_snd D l 0 i n').mp hp
  have hji : j = i := by omega
  subst hji
  rw [hget] at hget1
  simp only [Option.some.injEq] at hget1
  subst hget1
  have : th > 0 := by simpa using hd2
  omega

theorem proc_fired_pair (D : ℤ) (l : List (String × ℤ × Bool)) (i : ℕ) (n : String)
    (hp : (i, n) ∈ (procLoop D 0 l).2) :
    ∃ gal, (procLoop D 0 l).1[i]? = some (n, -1, gal) := by
  obtain ⟨j, e1, hj, hget1, hn, hd1, hd2⟩ := (procLoop_mem_snd D l 0 i n).mp hp
  have hji : j = i := by omega
  subst hji
  refine ⟨e1.2.2, ?_⟩
  rw [procLoop_fst_get, hget1]
  simp only [Option.map_some']
  rw [if_pos ⟨hd1, hd2⟩]
  rw [hn]

theorem milestonePhase_proc_consumed (g : Game) (r : TickRand) (i : ℕ) (n : String)
    (th : ℤ) (gal : Bool)
    (hg : g.procedural_milestones[i]? = some (n, th, gal)) (hth : th ≤ 0) :
    (milestonePhase g r).1.procedural_milestones[i]? = some (n, th, gal) ∧
    ∀ n', MEvent.procM i n' ∉ (milestonePhase g r).2 := by
  have hi : i < g.procedural_milestones.length := by
    by_contra hcon
    rw [List.getElem?_eq_none (by omega)] at hg
    exact Option.noConfusion hg
  have happ : ∀ x, (g.procedural_milestones ++ [x])[i]? = some (n, th, gal) := by
    intro x
    rw [List.getElem?_append]
    rw [if_pos hi]
    exact hg
  have hno : ¬(g.distance ≥ th ∧ th > 0) := by omega
  simp only [milestonePhase, generateProceduralMilestone]
  split_ifs <;> refine ⟨?_, ?_⟩ <;>
    first
      | exact hg
      | exact happ _
      | (intro n' hmem
         simp at hmem
         done)
      | (dsimp only
         rw [procLoop_fst_get, happ _]
         simp [hno])
      | (dsimp only
         rw [procLoop_fst_get, hg]
         simp [hno])
      | (intro n' hmem
         simp at hmem
         exact proc_nofire_pair g.distance _ i n th gal (happ _) hth n' hmem)
      | (intro n' hmem
         simp at hmem
         exact proc_nofire_pair g.distance _ i n th gal hg hth n' hmem)

theorem milestonePhase_proc_fired (g : Game) (r : TickRand) (i : ℕ) (n : String)
    (hm : MEvent.procM i n ∈ (milestonePhase g r).2) :
    ∃ gal, (milestonePhase g r).1.procedural_milestones[i]? = some (n, -1, gal) := by
  simp only [milestonePhase, generateProceduralMilestone] at hm ⊢
  split_ifs at hm ⊢ <;>
    first
      | (simp at hm
         done)
      | (simp only [List.mem_map, MEvent.procM.injEq] at hm
         obtain ⟨p, hp, hp1, hp2⟩ := hm
         dsimp only
         refine proc_fired_pair g.distance _ i n ?_
         rw [← hp1, ← hp2]
         simpa using hp)

theorem corePhases_milestone (g : Game) (r : TickRand) :
    (corePhases g r).milestone_index = g.milestone_index ∧
    (corePhases g r).procedural_milestones = g.procedural_milestones := by
  obtain ⟨_, _, _, _, _, _, _, p8, p9, _, _, _, _, _⟩ := progressionPhase_pres g
  obtain ⟨_, _, _, _, _, s6, s7, _, _, _, _, _, _⟩ :=
    spawnPhase_pres (progressionPhase g) r
  set gs := spawnPhase (progressionPhase g) r with hgs
  set mm := gs.current_speed / gs.obstacle_speed with hmm
  obtain ⟨_, _, o3, o4, _, _, _, _, _, _, _⟩ := obstaclesPhase_pres mm gs
  set go := obstaclesPhase mm gs with hgo
  obtain ⟨_, _, b3, b4, _, _, _, _, _, _, _⟩ := blackHolesPhase_pres mm go
  set gb := blackHolesPhase mm go with hgb
  obtain ⟨_, _, _, _, q5, q6, _, _, _, _, _, _, _⟩ := portalsPhase_pres mm r gb
  set gq := portalsPhase mm r gb with hgq
  obtain ⟨_, _, _, _, l5, l6, _, _, _, _, _, _, _⟩ := planetsPhase_pres mm gq
  have hcore : corePhases g r = planetsPhase mm gq := rfl
  rw [hcore]
  constructor
  · rw [l5, q5, b3, o3, s6, p8]
  · rw [l6, q6, b4, o4, s7, p9]

theorem updateGame_cursor_mono (g : Game) (r : TickRand) :
    g.milestone_index ≤ (updateGame g r).1.milestone_index := by
  unfold updateGame
  split_ifs with h
  · obtain ⟨c1, _⟩ := corePhases_milestone g r
    rcases milestonePhase_cursor (corePhases g r) r with h1 | h1 <;> rw [h1, c1] <;> omega
  · simp

theorem updateGame_cursor_le_succ (g : Game) (r : TickRand) :
    (updateGame g r).1.milestone_index ≤ g.milestone_index + 1 := by
  unfold updateGame
  split_ifs with h
  · obtain ⟨c1, _⟩ := corePhases_milestone g r
    rcases milestonePhase_cursor (corePhases g r) r with h1 | h1 <;> rw [h1, c1] <;> omega
  · simp

theorem updateGame_fixed_mem (g : Game) (r : TickRand) (i : ℕ) (n : String)
    (hm : MEvent.fixedM i n ∈ (updateGame g r).2) :
    i = g.milestone_index ∧ (updateGame g r).1.milestone_index = i + 1 := by
  unfold updateGame at hm ⊢
  split_ifs at hm ⊢ with h
  · obtain ⟨c1, _⟩ := corePhases_milestone g r
    obtain ⟨_, hi, _, _⟩ := (milestonePhase_fixed_mem (corePhases g r) r i n).mp hm
    refine ⟨by rw [hi, c1], ?_⟩
    exact milestonePhase_fixed_cursor (corePhases g r) r i n hm
  · simp at hm

theorem updateGame_fixed_count (g : Game) (r : TickRand) :
    (updateGame g r).2.countP MEvent.isFixed ≤ 1 := by
  unfold updateGame
  split_ifs with h
  · exact milestonePhase_fixed_count (corePhases g r) r
  · simp

theorem updateGame_proc_consumed (g : Game) (r : TickRand) (i : ℕ) (n : String)
    (th : ℤ) (gal : Bool)
    (hg : g.procedural_milestones[i]? = some (n, th, gal)) (hth : th ≤ 0) :
    (updateGame g r).1.procedural_milestones[i]? = some (n, th, gal) ∧
    ∀ n', MEvent.procM i n' ∉ (updateGame g r).2 := by
  unfold updateGame
  split_ifs with h
  · obtain ⟨_, c2⟩ := corePhases_milestone g r
    exact milestonePhase_proc_consumed (corePhases g r) r i n th gal (by rw [c2]; exact hg) hth
  · exact ⟨hg, by simp⟩

theorem updateGame_proc_fired (g : Game) (r : TickRand) (i : ℕ) (n : String)
    (hm : MEvent.procM i n ∈ (updateGame g r).2) :
    ∃ gal, (updateGame g r).1.procedural_milestones[i]? = some (n, -1, gal) := by
  unfold updateGame at hm ⊢
  split_ifs at hm ⊢ with h
  · exact milestonePhase_proc_fired (corePhases g r) r i n hm
  · simp at hm

theorem runEvents_fixed_lb :
    ∀ (rs : List TickRand) (g : Game) (t i : ℕ) (n : String),
      MEvent.fixedM i n ∈ (runEventsList g rs).getD t [] → g.milestone_index ≤ i := by
  intro rs
  induction rs with
  | nil =>
    intro g t i n hm
    simp [runEventsList] at hm
  | cons r rs ih =>
    intro g t i n hm
    cases t with
    | zero =>
      have := (updateGame_fixed_mem g r i n (by simpa [runEventsList] using hm)).1
      omega
    | succ t =>
      have h2 := ih (updateGame g r).1 t i n (by simpa [runEventsList] using hm)
      have h3 := updateGame_cursor_mono g r
      omega

theorem runEvents_fixed_no_later :
    ∀ (rs : List TickRand) (g : Game) (t1 t2 i j : ℕ) (n1 n2 : String),
      t1 < t2 → j ≤ i → MEvent.fixedM i n1 ∈ (runEventsList g rs).getD t1 [] →
      MEvent.fixedM j n2 ∈ (runEventsList g rs).getD t2 [] → False := by
  intro rs
  induction rs with
  | nil =>
    intro g t1 t2 i j n1 n2 hlt hji h1 h2
    simp [runEventsList] at h1
  | cons r rs ih =>
    intro g t1 t2 i j n1 n2 hlt hji h1 h2
    obtain ⟨t2x, rfl⟩ : ∃ t2x, t2 = t2x + 1 := ⟨t2 - 1, by omega⟩
    cases t1 with
    | zero =>
      obtain ⟨hi, hcur⟩ := updateGame_fixed_mem g r i n1 (by simpa [runEventsList] using h1)
      have hlb := runEvents_fixed_lb rs (updateGame g r).1 t2x j n2
        (by simpa [runEventsList] using h2)
      omega
    | succ t1 =>
      exact ih (updateGame g r).1 t1 t2x i j n1 n2 (by omega) hji
        (by simpa [runEventsList] using h1) (by simpa [runEventsList] using h2)

theorem runEvents_proc_consumed :
    ∀ (rs : List TickRand) (g : Game) (i : ℕ) (n : String) (th : ℤ) (gal : Bool),
      g.procedural_milestones[i]? = some (n, th, gal) → th ≤ 0 →
      ∀ (t : ℕ) (n' : String), MEvent.procM i n' ∉ (runEventsList g rs).getD t [] := by
  intro rs
  induction rs with
  | nil =>
    intro g i n th gal hg hth t n' hm
    simp [runEventsList] at hm
  | cons r rs ih =>
    intro g i n th gal hg hth t n' hm
    cases t with
    | zero =>
      exact (updateGame_proc_consumed g r i n th gal hg hth).2 n'
        (by simpa [runEventsList] using hm)
    | succ t =>
      exact ih (updateGame g r).1 i n th gal
        (updateGame_proc_consumed g r i n th gal hg hth).1 hth t n'
        (by simpa [runEventsList] using hm)

theorem runEvents_proc_unique :
    ∀ (rs : List TickRand) (g : Game) (t1 t2 i : ℕ) (n1 n2 : String),
      t1 < t2 → MEvent.procM i n1 ∈ (runEventsList g rs).getD t1 [] →
      MEvent.procM i n2 ∈ (runEventsList g rs).getD t2 [] → False := by
  intro rs
  induction rs with
  | nil =>
    intro g t1 t2 i n1 n2 hlt h1 h2
    simp [runEventsList] at h1
  | cons r rs ih =>
    intro g t1 t2 i n1 n2 hlt h1 h2
    obtain ⟨t2x, rfl⟩ : ∃ t2x, t2 = t2x + 1 := ⟨t2 - 1, by omega⟩
    cases t1 with
    | zero =>
      obtain ⟨gal, hcons⟩ := updateGame_proc_fired g r i n1 (by simpa [runEventsList] using h1)
      exact runEvents_proc_consumed rs (updateGame g r).1 i n1 (-1) gal hcons (by norm_num)
        t2x n2 (by simpa [runEventsList] using h2)
    | succ t1 =>
      exact ih (updateGame g r).1 t1 t2x i n1 n2 (by omega)
        (by simpa [runEventsList] using h1) (by simpa [runEventsList] using h2)

/-- C6: within a run, every milestone fires at most once — the fixed cursor
only moves forward, once fixed milestone `i` fires no milestone `j ≤ i` can
fire on a later tick, and a fixed milestone index fires on at most one tick of
any run; a procedural milestone's threshold is replaced by the sentinel `-1`
the moment it fires, and a procedural index fires on at most one tick of any
run. -/
theorem C6_milestones_fire_at_most_once :
    (∀ (g : Game) (r : TickRand), g.milestone_index ≤ (updateGame g r).1.milestone_index) ∧
    (∀ (g : Game) (rs : List TickRand) (t1 t2 i j : ℕ) (n1 n2 : String), j ≤ i →
      MEvent.fixedM i n1 ∈ (runEventsList g rs).getD t1 [] →
      MEvent.fixedM j n2 ∈ (runEventsList g rs).getD t2 [] → t2 ≤ t1) ∧
    (∀ (g : Game) (rs : List TickRand) (t1 t2 i : ℕ) (n1 n2 : String),
      MEvent.fixedM i n1 ∈ (runEventsList g rs).getD t1 [] →
      MEvent.fixedM i n2 ∈ (runEventsList g rs).getD t2 [] → t1 = t2) ∧
    (∀ (g : Game) (r : TickRand) (i : ℕ) (n : String),
      MEvent.procM i n ∈ (updateGame g r).2 →
      ∃ gal, (updateGame g r).1.procedural_milestones[i]? = some (n, -1, gal)) ∧
    (∀ (g : Game) (rs : List TickRand) (t1 t2 i : ℕ) (n1 n2 : String),
      MEvent.procM i n1 ∈ (runEventsList g rs).getD t1 [] →
      MEvent.procM i n2 ∈ (runEventsList g rs).getD t2 [] → t1 = t2) := by
  refine ⟨updateGame_cursor_mono, ?_, ?_, updateGame_proc_fired, ?_⟩
  · intro g rs t1 t2 i j n1 n2 hji h1 h2
    by_contra hcon
    exact runEvents_fixed_no_later rs g t1 t2 i j n1 n2 (by omega) hji h1 h2
  · intro g rs t1 t2 i n1 n2 h1 h2
    rcases lt_trichotomy t1 t2 with h | h | h
    · exact (runEvents_fixed_no_later rs g t1 t2 i i n1 n2 h le_rfl h1 h2).elim
    · exact h
    · exact (runEvents_fixed_no_later rs g t2 t1 i i n2 n1 h le_rfl h2 h1).elim
  · intro g rs t1 t2 i n1 n2 h1 h2
    rcases lt_trichotomy t1 t2 with h | h | h
    · exact (runEvents_proc_unique rs g t1 t2 i n1 n2 h h1 h2).elim
    · exact h
    · exact (runEvents_proc_unique rs g t2 t1 i n2 n1 h h2 h1).elim

/-- A game one tick away from crossing the Moon milestone. -/
def milestoneDemoGame : Game :=
  { demoGame with obstacles := [], pixels_traveled := 8 }

/-- Witness for C6: on a concrete one-tick run the Moon milestone fires at
tick 0, and firing at two equal positions forces the trivial `0 = 0`. -/
theorem C6_witness :
    MEvent.fixedM 0 "Moon" ∈ (runEventsList milestoneDemoGame [demoRand]).getD 0 [] ∧
    (0 : ℕ) = 0 := by
  have hmem : MEvent.fixedM 0 "Moon" ∈ (runEventsList milestoneDemoGame [demoRand]).getD 0 [] := by
    with_unfolding_all decide
  exact ⟨hmem,
    C6_milestones_fire_at_most_once.2.2.1 milestoneDemoGame [demoRand] 0 0 0 "Moon" "Moon" hmem hmem⟩

/-- C10: on any single tick the fixed cursor advances by at most one and at
most one fixed milestone event fires (however large the tick's distance gain
was), and the milestone block fires a fixed event exactly when the cursor is
inside the table and the distance has reached the cursor's threshold — so
thresholds already crossed keep firing one per subsequent tick. -/
theorem C10_fixed_at_most_one_per_tick :
    (∀ (g : Game) (r : TickRand), (updateGame g r).1.milestone_index ≤ g.milestone_index + 1) ∧
    (∀ (g : Game) (r : TickRand), (updateGame g r).2.countP MEvent.isFixed ≤ 1) ∧
    (∀ (g : Game) (r : TickRand),
      (∃ i n, MEvent.fixedM i n ∈ (milestonePhase g r).2) ↔
        (g.milestone_index < PLANET_MILESTONES.length ∧
         g.distance ≥ (PLANET_MILESTONES.getD g.milestone_index ("", 0, 0)).2.1)) := by
  refine ⟨updateGame_cursor_le_succ, updateGame_fixed_count, ?_⟩
  intro g r
  constructor
  · rintro ⟨i, n, hm⟩
    obtain ⟨h1, h2, h3, h4⟩ := (milestonePhase_fixed_mem g r i n).mp hm
    subst h2
    exact ⟨h1, h4⟩
  · rintro ⟨h1, h2⟩
    exact ⟨g.milestone_index, (PLANET_MILESTONES.getD g.milestone_index ("", 0, 0)).1,
      (milestonePhase_fixed_mem g r _ _).mpr ⟨h1, rfl, rfl, h2⟩⟩

/-- Witness for C10: a concrete state past the Moon threshold fires a fixed
event. -/
theorem C10_witness :
    ∃ i n, MEvent.fixedM i n ∈ (milestonePhase { demoGame with distance := 400000 } demoRand).2 :=
  (C10_fixed_at_most_one_per_tick.2.2 { demoGame with distance := 400000 } demoRand).mpr
    ⟨by with_unfolding_all decide, by with_unfolding_all decide⟩

end DeepSpaceDash






